import Mathlib

/-
Verification development for the tumour-growth simulation repository
(src/Einar_Model_Code/utils/odeModelClass.py and CustomModel.py).

Shallow embedding conventions:
  * Python floats are modelled by ℚ (exact arithmetic).
  * The external ODE solver scipy.integrate.solve_ivp is an oracle: a function
    from its call arguments to a result object; the embedding passes it exactly
    the arguments the source passes and consumes exactly the fields the source
    consumes (success flag, message, 2-D solution array y indexed
    [variable, timeStep]).
  * pandas DataFrames are lists of rows; a row of the trajectory record holds
    the Time, DrugConcentration and TumourSize columns plus the state-variable
    columns (in the order of stateVars).
  * Python dictionaries with string keys are association lists (insertion
    ordered, no duplicate keys), values are numbers or strings (ParamVal).
  * Degenerate inputs on which the Python code raises (empty treatment
    schedule, empty rolling window, missing DMax key) are noted at the
    definition they concern; the claims are only about non-raising runs.
-/

/-- Structural list head with default (Python seq[0], total). -/
def listHeadD {α : Type _} (l : List α) (d : α) : α :=
  match l with
  | [] => d
  | x :: _ => x

/-- Structural last element with default (Python seq[-1], total). -/
def lastD {α : Type _} (d : α) : List α → α
  | [] => d
  | [x] => x
  | _ :: y :: rest => lastD d (y :: rest)

/-- Structural last element as an Option. -/
def lastOpt {α : Type _} : List α → Option α
  | [] => none
  | [x] => some x
  | _ :: y :: rest => lastOpt (y :: rest)

/-- Structural indexing with default (Python seq[j] where j is in range, total). -/
def nthD {α : Type _} : List α → ℕ → α → α
  | [], _, d => d
  | x :: _, 0, _ => x
  | _ :: rest, j + 1, d => nthD rest j d

/-- The list a, a+dt, ..., a+(n-1)·dt by structural recursion on the count. -/
def arangeFrom (a dt : ℚ) : ℕ → List ℚ
  | 0 => []
  | n + 1 => a :: arangeFrom (a + dt) dt n

/-- numpy.arange(a, b, dt): the points a + k·dt for 0 ≤ k < ⌈(b-a)/dt⌉
(numpy computes exactly this count for a positive step). -/
def arangeQ (a b dt : ℚ) : List ℚ := arangeFrom a dt (⌈(b - a) / dt⌉).toNat

/-- pandas.DataFrame.drop_duplicates with keep=first: keep the first occurrence
of each distinct element, preserving order. -/
def dropDupAux {α : Type _} [DecidableEq α] (seen : List α) : List α → List α
  | [] => []
  | x :: rest => if x ∈ seen then dropDupAux seen rest else x :: dropDupAux (x :: seen) rest

/-- Exact-duplicate removal over a whole list (drop_duplicates, all columns). -/
def dropDuplicates {α : Type _} [DecidableEq α] (l : List α) : List α := dropDupAux [] l

/-- Values of the parameter dictionary paramDic: numbers or strings (the CASE
entry of the model variants is a string). -/
inductive ParamVal where
  | num (q : ℚ)
  | str (s : String)
deriving DecidableEq

/-- Python dict lookup on an association list: dic.get(k). -/
def lookupParam : List (String × ParamVal) → String → Option ParamVal
  | [], _ => none
  | (k, v) :: rest, key => if k = key then some v else lookupParam rest key

/-- Python dic.get(k, d) for a numeric read (the keys read this way in the
source, scaleFactor and DMax, hold numbers whenever present). -/
def getNumParam (dic : List (String × ParamVal)) (key : String) (d : ℚ) : ℚ :=
  match lookupParam dic key with
  | some (.num q) => q
  | _ => d

/-- Arguments the source passes to scipy.integrate.solve_ivp (the pluggable
ModelEqns callback is part of the oracle itself). -/
structure SolveArgs where
  y0 : List ℚ
  t_span : ℚ × ℚ
  t_eval : List ℚ
  method : String
  atol : ℚ
  rtol : ℚ
  max_step : WithTop ℚ

/-- The fields of the solve_ivp result object that the source consumes. -/
structure SolOut where
  success : Bool
  message : String
  y : List (List ℚ)

/-- The external ODE solver as an oracle. -/
def Solver : Type := SolveArgs → SolOut

/-- The solver-configuration attributes of an ODEModel instance
(odeModelClass.py lines 30-37, re-assignable at every Simulate call). -/
structure SolverConfig where
  dt : ℚ
  absErr : ℚ
  relErr : ℚ
  solverMethod : String
  max_step : WithTop ℚ
  numericalStabilisationB : Bool
  suppressOutputB : Bool
deriving DecidableEq

/-- Keyword overrides accepted by Simulate (odeModelClass.py lines 52-60);
a missing entry means the keyword was not passed. -/
structure SimOverrides where
  dt : Option ℚ
  absErr : Option ℚ
  relErr : Option ℚ
  method : Option String
  max_step : Option (WithTop ℚ)
  suppressOutputB : Option Bool
  numericalStabilisationB : Option Bool

/-- A Simulate call with no solver keyword arguments. -/
def noOverrides : SimOverrides :=
  { dt := none, absErr := none, relErr := none, method := none, max_step := none,
    suppressOutputB := none, numericalStabilisationB := none }

/-- Lines 52-60 of Simulate: each solver attribute is replaced by the keyword
value when given, otherwise kept. -/
def applyOverrides (cfg : SolverConfig) (kw : SimOverrides) : SolverConfig :=
  { dt := kw.dt.getD cfg.dt
    absErr := kw.absErr.getD cfg.absErr
    relErr := kw.relErr.getD cfg.relErr
    solverMethod := kw.method.getD cfg.solverMethod
    max_step := kw.max_step.getD cfg.max_step
    numericalStabilisationB := kw.numericalStabilisationB.getD cfg.numericalStabilisationB
    suppressOutputB := kw.suppressOutputB.getD cfg.suppressOutputB }

/-- One treatment interval (startTime, endTime, dose). -/
structure TreatInterval where
  startTime : ℚ
  endTime : ℚ
  dose : ℚ
deriving DecidableEq

/-- One row of the trajectory record resultsDf; states holds the
state-variable columns in the order of stateVars. -/
structure Row where
  Time : ℚ
  DrugConcentration : ℚ
  states : List ℚ
  TumourSize : ℚ
deriving DecidableEq

/-- A row of zeroes, used as the total-function default where Python would
index an empty frame. -/
def emptyRow : Row := { Time := 0, DrugConcentration := 0, states := [], TumourSize := 0 }

/-- An ODEModel instance as Simulate sees it: an instance whose
initialStateList attribute exists (SetParams has run; the construction path
itself is modelled separately below for the construction claims). -/
structure ODEModel where
  paramDic : List (String × ParamVal)
  stateVars : List String
  initialStateList : List ℚ
  resultsDf : Option (List Row)
  cfg : SolverConfig
  successB : Bool

/-- Lines 72-78 of Simulate: the evaluation grid of one interval.  A non-final
interval uses numpy.arange(t0, t1, dt) (stops strictly before t1); the final
interval uses numpy.arange(t0, t1+dt, dt) and, when the computed last point is
less than or equal to t1, overwrites it with t1 (the floating-point guard). -/
def buildTVec (isFinal : Bool) (t0 t1 dt : ℚ) : List ℚ :=
  if isFinal then
    match lastOpt (arangeQ t0 (t1 + dt) dt) with
    | none => arangeQ t0 (t1 + dt) dt
    | some x =>
        if x ≤ t1 then (arangeQ t0 (t1 + dt) dt).dropLast ++ [t1]
        else arangeQ t0 (t1 + dt) dt
  else arangeQ t0 t1 dt

/-- The grid of one interval of a schedule, given the solver configuration. -/
def tVecFor (cfg : SolverConfig) (iv : TreatInterval) (isFinal : Bool) : List ℚ :=
  buildTVec isFinal iv.startTime iv.endTime cfg.dt

/-- Python currStateVec[-1] = d: replace the last element. -/
def setLast : List ℚ → ℚ → List ℚ
  | [], _ => []
  | [_], v => [v]
  | x :: y :: rest, v => x :: setLast (y :: rest) v

/-- numpy.any(row < 0) for one row. -/
def rowHasNeg : List ℚ → Bool
  | [] => false
  | x :: rest => if x < 0 then true else rowHasNeg rest

/-- numpy.any(solObj.y < 0). -/
def hasNeg : List (List ℚ) → Bool
  | [] => false
  | r :: rest => if rowHasNeg r then true else hasNeg rest

/-- solObj.y[solObj.y < 0] = 0: clamp negatives to zero. -/
def clampNeg (y : List (List ℚ)) : List (List ℚ) :=
  y.map (List.map (fun v => if v < 0 then 0 else v))

/-- solObj.y[:, -1]: the last column of the solution array. -/
def lastColumn (y : List (List ℚ)) : List ℚ := y.map (fun r => lastD 0 r)

/-- Lines 80-92 of Simulate: the solve_ivp call for one interval (output
suppression only redirects console output and does not change the result,
so the call itself is identical in both branches). -/
def callSolver (cfg : SolverConfig) (solver : Solver) (sv : List ℚ) (iv : TreatInterval)
    (isFinal : Bool) : SolOut :=
  solver
    { y0 := setLast sv iv.dose
      t_span := (listHeadD (tVecFor cfg iv isFinal) 0, lastD 0 (tVecFor cfg iv isFinal) + cfg.dt)
      t_eval := tVecFor cfg iv isFinal
      method := cfg.solverMethod
      atol := cfg.absErr
      rtol := cfg.relErr
      max_step := cfg.max_step }

/-- Lines 96-105 of Simulate: an interval fails when the solver reports
non-convergence, or when the solution contains a negative value and numerical
stabilisation is disabled. -/
def intervalFailed (cfg : SolverConfig) (out : SolOut) : Bool :=
  !out.success || (hasNeg out.y && !cfg.numericalStabilisationB)

/-- Line 102 of Simulate: with stabilisation enabled, negative values of the
solution are clamped to zero; otherwise the solution is used as returned. -/
def stabilisedY (cfg : SolverConfig) (out : SolOut) : List (List ℚ) :=
  if hasNeg out.y && cfg.numericalStabilisationB then clampNeg out.y else out.y

/-- Line 115-117 of Simulate: the per-interval DataFrame.  Row j carries
Time = tVec[j], DrugConcentration = y[-1][j] and, for each state variable in
order, y[i][j] (dict(zip(stateVars, y)) pairs the first stateVars.length rows
of y with the state-variable names).  TumourSize is filled in later. -/
def mkBlockAux (nVars : ℕ) (y : List (List ℚ)) : ℕ → List ℚ → List Row
  | _, [] => []
  | j, t :: rest =>
      { Time := t
        DrugConcentration := nthD (lastD [] y) j 0
        states := (y.take nVars).map (fun r => nthD r j 0)
        TumourSize := 0 } :: mkBlockAux nVars y (j + 1) rest

/-- The rows of one interval of the solution. -/
def mkBlock (nVars : ℕ) (y : List (List ℚ)) (tVec : List ℚ) : List Row :=
  mkBlockAux nVars y 0 tVec

/-- Lines 124-125 of Simulate: the all-zero block substituted when no interval
produced output (each state column and the concentration column are zero along
the time grid of the last attempted interval). -/
def zeroBlock (tVec : List ℚ) (nVars : ℕ) : List Row :=
  tVec.map (fun t =>
    { Time := t, DrugConcentration := 0, states := List.replicate nVars 0, TumourSize := 0 })

/-- Result of the interval loop of Simulate (lines 71-118): the per-interval
row blocks produced so far, the encounteredProblemB flag, the running state
vector, and the time grid of the last attempted interval (the tVec variable
after the loop, consumed by the zero-row fallback). -/
structure RunResult where
  blocks : List (List Row)
  problemB : Bool
  finalState : List ℚ
  lastTVec : List ℚ

/-- Lines 71-118 of Simulate: iterate the treatment intervals in order; on the
first failing interval stop at once, discarding that interval's solution;
otherwise append the interval's rows (negative values clamped beforehand when
stabilisation is enabled) and continue from the last solution column. -/
def runLoop (cfg : SolverConfig) (solver : Solver) (nVars : ℕ) (sv : List ℚ) :
    List TreatInterval → RunResult
  | [] => { blocks := [], problemB := false, finalState := sv, lastTVec := [] }
  | iv :: rest =>
    if intervalFailed cfg (callSolver cfg solver sv iv rest.isEmpty) then
      { blocks := [], problemB := true, finalState := setLast sv iv.dose,
        lastTVec := tVecFor cfg iv rest.isEmpty }
    else
      let y := stabilisedY cfg (callSolver cfg solver sv iv rest.isEmpty)
      let r := runLoop cfg solver nVars (lastColumn y) rest
      { blocks := mkBlock nVars y (tVecFor cfg iv rest.isEmpty) :: r.blocks
        problemB := r.problemB
        finalState := r.finalState
        lastTVec := if rest.isEmpty then tVecFor cfg iv rest.isEmpty else r.lastTVec }

/-- treatmentScheduleList[0][0] (0 as total default; Python raises on an empty
schedule). -/
def firstStart : List TreatInterval → ℚ
  | [] => 0
  | iv :: _ => iv.startTime

/-- Line 64 of Simulate: the call starts fresh (from the initial state, with
the accumulated record discarded) iff no record exists or the schedule starts
at time 0. -/
abbrev simFresh (m : ODEModel) (sched : List TreatInterval) : Prop :=
  m.resultsDf = none ∨ firstStart sched = 0

/-- Python list truncation/pad used to read one value per state variable from
the last recorded row (the columns align with stateVars in every run the
source produces). -/
def takePad : ℕ → List ℚ → List ℚ
  | 0, _ => []
  | n + 1, [] => 0 :: takePad n []
  | n + 1, x :: rest => x :: takePad n rest

/-- Line 68 of Simulate: resume from the last recorded value of each state
variable and of DrugConcentration. -/
def resumeState (m : ODEModel) : List ℚ :=
  takePad m.stateVars.length (lastD emptyRow (m.resultsDf.getD [])).states ++
    [(lastD emptyRow (m.resultsDf.getD [])).DrugConcentration]

/-- Lines 64-68 of Simulate: the state vector integration starts from. -/
def simStartVec (m : ODEModel) (sched : List TreatInterval) : List ℚ :=
  if simFresh m sched then m.initialStateList ++ [0] else resumeState m

/-- The rows already in the record that the new results are appended to
(none when the call starts fresh: line 66 resets resultsDf). -/
def simOldRows (m : ODEModel) (sched : List TreatInterval) : List Row :=
  if simFresh m sched then [] else m.resultsDf.getD []

/-- Lines 136-139: RunCellCountToTumourSizeModel, the scale factor times the
row-wise sum of the state-variable columns. -/
def ODEModel.RunCellCountToTumourSizeModel (m : ODEModel) (states : List ℚ) : ℚ :=
  getNumParam m.paramDic "scaleFactor" 1 * states.sum

/-- Line 127 of Simulate: fill the TumourSize column of the new rows. -/
def addTumourSize (m : ODEModel) (rows : List Row) : List Row :=
  rows.map (fun r => { r with TumourSize := m.RunCellCountToTumourSizeModel r.states })

/-- The interval loop of one Simulate call, with its configuration and
starting state resolved. -/
def simRun (m : ODEModel) (solver : Solver) (kw : SimOverrides) (sched : List TreatInterval) :
    RunResult :=
  runLoop (applyOverrides m.cfg kw) solver m.stateVars.length (simStartVec m sched) sched

/-- Lines 121-128 of Simulate: the rows this call appends to the record — the
concatenated per-interval blocks, or the all-zero fallback block when no
interval produced output, with TumourSize computed on exactly these rows. -/
def simNewRows (m : ODEModel) (solver : Solver) (kw : SimOverrides) (sched : List TreatInterval) :
    List Row :=
  addTumourSize m
    (if (simRun m solver kw sched).blocks.isEmpty then
      zeroBlock (simRun m solver kw sched).lastTVec m.stateVars.length
    else (simRun m solver kw sched).blocks.flatten)

/-- ODEModel.Simulate (odeModelClass.py lines 50-132).  The solver keyword
overrides are written to the instance, the starting state is determined
(lines 64-68), the interval loop runs, the produced rows (or the zero-row
fallback) get their TumourSize column and are appended to the retained record,
and successB records whether any processed interval failed. -/
def ODEModel.Simulate (m : ODEModel) (solver : Solver) (kw : SimOverrides)
    (sched : List TreatInterval) : ODEModel :=
  { m with
    cfg := applyOverrides m.cfg kw
    resultsDf := some (simOldRows m sched ++ simNewRows m solver kw sched)
    successB := !(simRun m solver kw sched).problemB }

/-- Specification-side reading of the success-flag claim, written from the
claim's words: at least one processed interval fails, where an interval fails
on solver non-convergence or on a negative value with stabilisation disabled,
and processing follows the schedule order and stops at the first failure. -/
def anyProcessedFails (cfg : SolverConfig) (solver : Solver) (sv : List ℚ) :
    List TreatInterval → Bool
  | [] => false
  | iv :: rest =>
    if intervalFailed cfg (callSolver cfg solver sv iv rest.isEmpty) then true
    else
      anyProcessedFails cfg solver
        (lastColumn (stabilisedY cfg (callSolver cfg solver sv iv rest.isEmpty))) rest

/-- Specification-side reading of the first-failure claim: the index of the
first failing interval of the schedule, none when every interval succeeds. -/
def firstFailIdx (cfg : SolverConfig) (solver : Solver) (sv : List ℚ) :
    List TreatInterval → Option ℕ
  | [] => none
  | iv :: rest =>
    if intervalFailed cfg (callSolver cfg solver sv iv rest.isEmpty) then some 0
    else
      (firstFailIdx cfg solver
        (lastColumn (stabilisedY cfg (callSolver cfg solver sv iv rest.isEmpty))) rest).map
        (· + 1)

/-- self.resultsDf.TumourSize.iat[-1]: the TumourSize of the last recorded row. -/
def lastTumourSize (m : ODEModel) : ℚ := (lastD emptyRow (m.resultsDf.getD [])).TumourSize

/-- A while loop with an explicit fuel bound: run the body while the guard
holds and fuel remains. -/
def loopRun {σ : Type _} (guard : σ → Bool) (step : σ → σ) : ℕ → σ → σ
  | 0, s => s
  | fuel + 1, s => if guard s then loopRun guard step fuel (step s) else s

/-- The number of iterations the while loop executes within the fuel bound. -/
def loopCount {σ : Type _} (guard : σ → Bool) (step : σ → σ) : ℕ → σ → ℕ
  | 0, _ => 0
  | fuel + 1, s => if guard s then loopCount guard step fuel (step s) + 1 else 0

/-- Arguments of Simulate_AT1 (odeModelClass.py lines 143-144).  nCycles is a
possibly infinite count (numpy.inf by default); t_start is t_span[0]
(t_span defaults to (0, t_end) and only its first component is read). -/
structure AT1Params where
  atThreshold : ℚ
  doseAdjustFac : ℚ
  D0 : Option ℚ
  v_min : ℚ
  intervalLength : ℚ
  mode : String
  t_end : ℚ
  nCycles : WithTop ℕ
  t_start : ℚ

/-- The loop-local variables of Simulate_AT1 (lines 146-150) together with the
model instance the loop mutates. -/
structure AT1State where
  m : ODEModel
  dose : ℚ
  lastNonZeroDose : ℚ
  refSize : ℚ
  currStart : ℚ
  currEnd : ℚ
  currCycleId : ℕ

/-- Lines 145-150 of Simulate_AT1: initial cursor, reference size, dose
(paramDic DMax unless D0 is given; Python raises when DMax is absent, the
0 default is never reached on the source's models) and remembered dose. -/
def AT1Init (p : AT1Params) (m : ODEModel) : AT1State :=
  { m := m
    dose := p.D0.getD (getNumParam m.paramDic "DMax" 0)
    lastNonZeroDose := p.D0.getD (getNumParam m.paramDic "DMax" 0)
    refSize := getNumParam m.paramDic "scaleFactor" 1 * m.initialStateList.sum
    currStart := p.t_start
    currEnd := p.t_start + p.intervalLength
    currCycleId := 0 }

/-- Lines 158-173 of Simulate_AT1, the dose update for one decision step on
the pair (dose, lastNonZeroDose): first restore the remembered dose if the
current dose is 0; then withdraw (remembering the dose) below v_min, shrink
below (1-θ)·refSize, grow above (1+θ)·refSize (capping at DMax), else hold. -/
def at1DoseUpdate (atThreshold doseAdjustFac : ℚ) (mode : String) (DMax v_min refSize : ℚ)
    (doseLast : ℚ × ℚ) (T : ℚ) : ℚ × ℚ :=
  let dose := if doseLast.1 = 0 then doseLast.2 else doseLast.1
  if T < v_min then (0, dose)
  else if T < (1 - atThreshold) * refSize then
    (max ((if mode = "original" then 1 - doseAdjustFac else 1 / doseAdjustFac) * dose) 0,
      doseLast.2)
  else if T > (1 + atThreshold) * refSize then
    (min ((if mode = "original" then 1 + doseAdjustFac else doseAdjustFac) * dose) DMax,
      doseLast.2)
  else (dose, doseLast.2)

/-- One iteration of the Simulate_AT1 loop body (lines 152-177): a
single-interval Simulate call, the dose update on the newly observed
TumourSize, the rolling reference reset to that observation, and the cursor
advance.  The source never increments currCycleId inside this loop. -/
def Simulate_AT1_step (p : AT1Params) (solver : Solver) (kw : SimOverrides)
    (s : AT1State) : AT1State :=
  { m := s.m.Simulate solver kw [⟨s.currStart, s.currEnd, s.dose⟩]
    dose :=
      (at1DoseUpdate p.atThreshold p.doseAdjustFac p.mode (getNumParam s.m.paramDic "DMax" 0)
        p.v_min s.refSize (s.dose, s.lastNonZeroDose)
        (lastTumourSize (s.m.Simulate solver kw [⟨s.currStart, s.currEnd, s.dose⟩]))).1
    lastNonZeroDose :=
      (at1DoseUpdate p.atThreshold p.doseAdjustFac p.mode (getNumParam s.m.paramDic "DMax" 0)
        p.v_min s.refSize (s.dose, s.lastNonZeroDose)
        (lastTumourSize (s.m.Simulate solver kw [⟨s.currStart, s.currEnd, s.dose⟩]))).2
    refSize := lastTumourSize (s.m.Simulate solver kw [⟨s.currStart, s.currEnd, s.dose⟩])
    currStart := s.currStart + p.intervalLength
    currEnd := s.currEnd + p.intervalLength
    currCycleId := s.currCycleId }

/-- The while-loop guard of Simulate_AT1 (line 151). -/
def Simulate_AT1_guard (p : AT1Params) (s : AT1State) : Bool :=
  if s.currEnd ≤ p.t_end + p.intervalLength ∧ (s.currCycleId : WithTop ℕ) < p.nCycles then
    true
  else false

/-- Simulate_AT1 (lines 143-180): the feedback loop followed by
exact-duplicate removal on the trajectory record. -/
def Simulate_AT1 (p : AT1Params) (solver : Solver) (kw : SimOverrides) (m : ODEModel)
    (fuel : ℕ) : ODEModel :=
  { (loopRun (Simulate_AT1_guard p) (Simulate_AT1_step p solver kw) fuel (AT1Init p m)).m with
    resultsDf :=
      ((loopRun (Simulate_AT1_guard p) (Simulate_AT1_step p solver kw) fuel
        (AT1Init p m)).m.resultsDf).map dropDuplicates }

/-- Arguments of Simulate_AT2 (lines 184-185). -/
structure AT2Params where
  atThreshold : ℚ
  D_star : Option ℚ
  D0 : Option ℚ
  DMin : ℚ
  intervalLength : ℚ
  n_days_lookback : ℕ
  t_end : ℚ
  nCycles : WithTop ℕ
  t_start : ℚ

/-- The loop-local variables of Simulate_AT2 (lines 186-192); D_star is
resolved once before the loop (line 191) and never reassigned. -/
structure AT2State where
  m : ODEModel
  dose : ℚ
  refSize : ℚ
  prevSizesList : List ℚ
  D_star : ℚ
  currStart : ℚ
  currEnd : ℚ
  currCycleId : ℕ

/-- Lines 186-192 of Simulate_AT2: initial cursor, reference, rolling window
of the last n_days_lookback sizes, and doses. -/
def AT2Init (p : AT2Params) (m : ODEModel) : AT2State :=
  { m := m
    dose := p.D0.getD (getNumParam m.paramDic "DMax" 0)
    refSize := getNumParam m.paramDic "scaleFactor" 1 * m.initialStateList.sum
    prevSizesList :=
      List.replicate p.n_days_lookback
        (getNumParam m.paramDic "scaleFactor" 1 * m.initialStateList.sum)
    D_star := p.D_star.getD (getNumParam m.paramDic "DMax" 0)
    currStart := p.t_start
    currEnd := p.t_start + p.intervalLength
    currCycleId := 0 }

/-- One iteration of the Simulate_AT2 loop body (lines 194-214): simulate one
interval, choose D_star above (1+θ)·refSize else DMin, take the oldest window
entry as the next reference, shift the window and push the new observation
(Python raises on an empty window; the claims only concern nonempty ones),
advance the cursor and the cycle counter. -/
def Simulate_AT2_step (p : AT2Params) (solver : Solver) (kw : SimOverrides)
    (s : AT2State) : AT2State :=
  { m := s.m.Simulate solver kw [⟨s.currStart, s.currEnd, s.dose⟩]
    dose :=
      if lastTumourSize (s.m.Simulate solver kw [⟨s.currStart, s.currEnd, s.dose⟩]) >
          (1 + p.atThreshold) * s.refSize then s.D_star
      else p.DMin
    refSize := listHeadD s.prevSizesList 0
    prevSizesList :=
      match s.prevSizesList with
      | [] => []
      | _ :: tail =>
          tail ++ [lastTumourSize (s.m.Simulate solver kw [⟨s.currStart, s.currEnd, s.dose⟩])]
    D_star := s.D_star
    currStart := s.currStart + p.intervalLength
    currEnd := s.currEnd + p.intervalLength
    currCycleId := s.currCycleId + 1 }

/-- The while-loop guard of Simulate_AT2 (line 193). -/
def Simulate_AT2_guard (p : AT2Params) (s : AT2State) : Bool :=
  if s.currEnd ≤ p.t_end + p.intervalLength ∧ (s.currCycleId : WithTop ℕ) < p.nCycles then
    true
  else false

/-- Simulate_AT2 (lines 184-217): the feedback loop followed by
exact-duplicate removal on the trajectory record. -/
def Simulate_AT2 (p : AT2Params) (solver : Solver) (kw : SimOverrides) (m : ODEModel)
    (fuel : ℕ) : ODEModel :=
  { (loopRun (Simulate_AT2_guard p) (Simulate_AT2_step p solver kw) fuel (AT2Init p m)).m with
    resultsDf :=
      ((loopRun (Simulate_AT2_guard p) (Simulate_AT2_step p solver kw) fuel
        (AT2Init p m)).m.resultsDf).map dropDuplicates }

/-- Arguments of Simulate_AT50 (lines 221-223). -/
structure AT50Params where
  refSize : Option ℚ
  atThreshold : ℚ
  D_Star : Option ℚ
  D_min : ℚ
  intervalLength_on : ℚ
  intervalLength_off : Option ℚ
  t_end : ℚ
  nCycles : WithTop ℕ
  t_start : ℚ

/-- The loop-local variables of Simulate_AT50 (lines 224-232).  refSize,
D_Star and intervalLength_off are resolved once before the loop and never
reassigned inside it; intervalLength switches between the on and off
lengths. -/
structure AT50State where
  m : ODEModel
  dose : ℚ
  intervalLength : ℚ
  refSize : ℚ
  D_Star : ℚ
  intervalLength_off : ℚ
  currStart : ℚ
  currEnd : ℚ
  currCycleId : ℕ

/-- Lines 240-248 of Simulate_AT50, the decision for one step on the pair
(dose, intervalLength): below (1-θ)·refSize switch to D_min and the off
length; strictly above refSize switch to D_Star and the on length; otherwise
hold both. -/
def at50Decision (atThreshold refSize D_min D_Star iLenOff iLenOn : ℚ)
    (doseLen : ℚ × ℚ) (T : ℚ) : ℚ × ℚ :=
  if T < (1 - atThreshold) * refSize then (D_min, iLenOff)
  else if T > refSize then (D_Star, iLenOn)
  else doseLen

/-- Lines 224-232 of Simulate_AT50: initial cursor, fixed reference (the
argument if given, else scale factor times the summed initial state), initial
dose DMax, on interval length. -/
def AT50Init (p : AT50Params) (m : ODEModel) : AT50State :=
  { m := m
    dose := getNumParam m.paramDic "DMax" 0
    intervalLength := p.intervalLength_on
    refSize := p.refSize.getD (getNumParam m.paramDic "scaleFactor" 1 * m.initialStateList.sum)
    D_Star := p.D_Star.getD (getNumParam m.paramDic "DMax" 0)
    intervalLength_off := p.intervalLength_off.getD p.intervalLength_on
    currStart := p.t_start
    currEnd := p.t_start + p.intervalLength_on
    currCycleId := 0 }

/-- One iteration of the Simulate_AT50 loop body (lines 234-253): simulate one
interval, apply the threshold decision to (dose, intervalLength), advance the
cursor by the updated interval length and the cycle counter by one; refSize is
untouched. -/
def Simulate_AT50_step (p : AT50Params) (solver : Solver) (kw : SimOverrides)
    (s : AT50State) : AT50State :=
  { s with
    m := s.m.Simulate solver kw [⟨s.currStart, s.currEnd, s.dose⟩]
    dose :=
      (at50Decision p.atThreshold s.refSize p.D_min s.D_Star s.intervalLength_off
        p.intervalLength_on (s.dose, s.intervalLength)
        (lastTumourSize (s.m.Simulate solver kw [⟨s.currStart, s.currEnd, s.dose⟩]))).1
    intervalLength :=
      (at50Decision p.atThreshold s.refSize p.D_min s.D_Star s.intervalLength_off
        p.intervalLength_on (s.dose, s.intervalLength)
        (lastTumourSize (s.m.Simulate solver kw [⟨s.currStart, s.currEnd, s.dose⟩]))).2
    currStart :=
      s.currStart +
        (at50Decision p.atThreshold s.refSize p.D_min s.D_Star s.intervalLength_off
          p.intervalLength_on (s.dose, s.intervalLength)
          (lastTumourSize (s.m.Simulate solver kw [⟨s.currStart, s.currEnd, s.dose⟩]))).2
    currEnd :=
      s.currEnd +
        (at50Decision p.atThreshold s.refSize p.D_min s.D_Star s.intervalLength_off
          p.intervalLength_on (s.dose, s.intervalLength)
          (lastTumourSize (s.m.Simulate solver kw [⟨s.currStart, s.currEnd, s.dose⟩]))).2
    currCycleId := s.currCycleId + 1 }

/-- The while-loop guard of Simulate_AT50 (line 233); it reads the current,
possibly switched, interval length. -/
def Simulate_AT50_guard (p : AT50Params) (s : AT50State) : Bool :=
  if s.currEnd ≤ p.t_end + s.intervalLength ∧ (s.currCycleId : WithTop ℕ) < p.nCycles then
    true
  else false

/-- Simulate_AT50 (lines 221-256): the feedback loop followed by
exact-duplicate removal on the trajectory record. -/
def Simulate_AT50 (p : AT50Params) (solver : Solver) (kw : SimOverrides) (m : ODEModel)
    (fuel : ℕ) : ODEModel :=
  { (loopRun (Simulate_AT50_guard p) (Simulate_AT50_step p solver kw) fuel (AT50Init p m)).m with
    resultsDf :=
      ((loopRun (Simulate_AT50_guard p) (Simulate_AT50_step p solver kw) fuel
        (AT50Init p m)).m.resultsDf).map dropDuplicates }

/-- The dose/remembered-dose pair of Simulate_AT1 along a run of the loop,
driven by arbitrary sequences of observed TumourSize values T and reference
sizes refS: seq (j+1) applies the step-j decision to seq j. -/
def at1DoseSeq (atThreshold doseAdjustFac : ℚ) (mode : String) (DMax v_min : ℚ)
    (T refS : ℕ → ℚ) (s0 : ℚ × ℚ) : ℕ → ℚ × ℚ
  | 0 => s0
  | j + 1 =>
      at1DoseUpdate atThreshold doseAdjustFac mode DMax v_min (refS j)
        (at1DoseSeq atThreshold doseAdjustFac mode DMax v_min T refS s0 j) (T j)

/-- The dose that enters a decision step after line 158 of Simulate_AT1
(restore the remembered dose when the current dose is 0). -/
def at1RestoredDose (doseLast : ℚ × ℚ) : ℚ :=
  if doseLast.1 = 0 then doseLast.2 else doseLast.1

/-- The attributes of an instance under construction that the construction
claims concern.  The solver-configuration attributes read from the same
kwargs in the base constructor are modelled by SolverConfig above and do not
interact with these. -/
structure CtorState where
  paramDic : List (String × ParamVal)
  stateVars : List String
  initialStateList : Option (List ℚ)
deriving DecidableEq

/-- Python float(v): the identity on numbers; raises (none) on the
non-numeric strings these dictionaries hold (the CASE entries). -/
def pyFloat : ParamVal → Option ℚ
  | .num q => some q
  | .str _ => none

/-- ODEModel.SetParams (odeModelClass.py lines 42-46): when the dictionary has
more than one key, every entry is replaced by float(kwargs.get(key, old)) and
initialStateList is rebuilt from the "<var>0" entries; a non-numeric value or
a missing "<var>0" key raises (none).  With at most one key it does nothing. -/
def SetParams (s : CtorState) (kwargs : List (String × ParamVal)) : Option CtorState :=
  if 1 < s.paramDic.length then do
    let newDic ← s.paramDic.mapM (fun p => do
      let q ← pyFloat ((lookupParam kwargs p.1).getD p.2)
      pure (p.1, ParamVal.num q))
    let init ← s.stateVars.mapM (fun v =>
      match lookupParam newDic (v ++ "0") with
      | some (.num q) => some q
      | _ => none)
    pure { s with paramDic := newDic, initialStateList := some init }
  else pure s

/-- ODEModel.__init__ (lines 20-38), restricted to the attributes of
CtorState: paramDic starts as the singleton DMax entry, stateVars as [P1],
no initial state list exists yet, and SetParams runs on the construction
kwargs. -/
def ODEModel_init (kwargs : List (String × ParamVal)) : Option CtorState :=
  SetParams
    { paramDic := [("DMax", .num 100)], stateVars := ["P1"], initialStateList := none } kwargs

/-- The parameter dictionary EinarPersistorModelType3L installs
(CustomModel.py lines 12-24), spread over the inherited base dictionary. -/
def type3LParamDic : List (String × ParamVal) :=
  [("DMax", .num 100), ("CASE", .str "Linear 3"), ("n", .num 1500),
   ("fracRes", .num (1/100)), ("Cmax", .num 10), ("k", .num (1/2500)),
   ("m", .num (1/2500)), ("u0", .num (1/2500)), ("v0", .num (1/250)),
   ("lambda0", .num (1/25)), ("lambda1", .num (1/1000)), ("delta_d0", .num (2/25))]

/-- EinarPersistorModelType3L.__init__ (CustomModel.py lines 9-25): the base
constructor runs first (receiving the construction kwargs), then paramDic and
stateVars are replaced by the variant's values; SetParams is not called
again. -/
def EinarPersistorModelType3L_init (kwargs : List (String × ParamVal)) :
    Option CtorState :=
  (ODEModel_init kwargs).map
    (fun s => { s with paramDic := type3LParamDic, stateVars := ["S", "R"] })

/-- Concrete scenario: a solver oracle that reports success and holds every
variable constant at its initial value across the evaluation grid. -/
def constSolver : Solver := fun a =>
  { success := true, message := "", y := a.y0.map (fun v => a.t_eval.map (fun _ => v)) }

/-- Concrete scenario: a solver oracle that always reports non-convergence. -/
def divergeSolver : Solver := fun _ =>
  { success := false, message := "diverged", y := [] }

/-- Concrete scenario: a solver oracle that diverges exactly on the interval
starting at time 1 and otherwise holds every variable constant. -/
def failAtOneSolver : Solver := fun a =>
  if a.t_span.1 = 1 then { success := false, message := "diverged", y := [] }
  else constSolver a

/-- Concrete scenario: a solver oracle that reports success but returns a
solution consisting of negative values. -/
def negSolver : Solver := fun a =>
  { success := true, message := "", y := a.y0.map (fun _ => a.t_eval.map (fun _ => (-1 : ℚ))) }

/-- Concrete scenario: a solver configuration with dt = 1 and stabilisation
disabled. -/
def cfg0 : SolverConfig :=
  { dt := 1, absErr := 1/100000000, relErr := 1/1000000, solverMethod := "DOP853",
    max_step := ⊤, numericalStabilisationB := false, suppressOutputB := false }

/-- Concrete scenario: a two-state-variable model instance with unit initial
populations and an empty trajectory record. -/
def exampleModel : ODEModel :=
  { paramDic := [("DMax", .num 100)], stateVars := ["S", "R"], initialStateList := [1, 1],
    resultsDf := none, cfg := cfg0, successB := false }

/-- Concrete scenario for the nCycles claim: Simulate_AT1 called with
nCycles = 1 on a horizon of 3 with unit decision intervals. -/
def at1BugParams : AT1Params :=
  { atThreshold := 1/5, doseAdjustFac := 1/2, D0 := none, v_min := 0, intervalLength := 1,
    mode := "original", t_end := 3, nCycles := (1 : ℕ), t_start := 0 }

/-- Concrete scenario for the duplicate-removal claim: Simulate_AT50 with a
fixed reference of 1 (below the observed size), D_Star = 42 and a horizon of
1, so that the dose changes from 100 to 42 after the first decision step. -/
def at50DupParams : AT50Params :=
  { refSize := some 1, atThreshold := 1/2, D_Star := some 42, D_min := 0,
    intervalLength_on := 1, intervalLength_off := none, t_end := 1, nCycles := ⊤,
    t_start := 0 }

/-- Specification-side count of the rows of a record whose Time column equals
a given value. -/
def countTimeEq (t : ℚ) : List Row → ℕ
  | [] => 0
  | r :: rest => (if r.Time = t then 1 else 0) + countTimeEq t rest

/- ===================================================================== -/
/- Theorems.                                                             -/
/- ===================================================================== -/

/-- Helper: a Simulate call without keyword arguments changes no solver
attribute. -/
theorem applyOverrides_noOverrides (c : SolverConfig) : applyOverrides c noOverrides = c := rfl

/-- Helper: elements produced by dropDupAux avoid the seen accumulator. -/
theorem dropDupAux_not_mem_seen {α : Type _} [DecidableEq α] :
    ∀ (l seen : List α) (x : α), x ∈ dropDupAux seen l → x ∉ seen := by
  intro l
  induction l with
  | nil => intro seen x hx; simp [dropDupAux] at hx
  | cons a rest ih =>
    intro seen x hx
    by_cases ha : a ∈ seen
    · rw [dropDupAux, if_pos ha] at hx
      exact ih seen x hx
    · rw [dropDupAux, if_neg ha] at hx
      rcases List.mem_cons.mp hx with h | h
      · subst h; exact ha
      · intro hmem
        exact (ih (a :: seen) x h) (List.mem_cons_of_mem a hmem)

/-- Helper: dropDupAux yields a duplicate-free list. -/
theorem dropDupAux_nodup {α : Type _} [DecidableEq α] :
    ∀ (l seen : List α), (dropDupAux seen l).Nodup := by
  intro l
  induction l with
  | nil => intro seen; simp [dropDupAux]
  | cons a rest ih =>
    intro seen
    by_cases ha : a ∈ seen
    · rw [dropDupAux, if_pos ha]; exact ih seen
    · rw [dropDupAux, if_neg ha]
      refine List.nodup_cons.mpr ⟨?_, ih (a :: seen)⟩
      intro hmem
      exact (dropDupAux_not_mem_seen rest (a :: seen) a hmem) (List.mem_cons_self a seen)

/-- Helper: exact-duplicate removal yields a duplicate-free list. -/
theorem dropDuplicates_nodup {α : Type _} [DecidableEq α] (l : List α) :
    (dropDuplicates l).Nodup :=
  dropDupAux_nodup l []

/-- Helper: the encounteredProblemB flag of the interval loop agrees with the
specification-side predicate "some processed interval fails". -/
theorem runLoop_problemB_eq (cfg : SolverConfig) (solver : Solver) (nVars : ℕ) :
    ∀ (sched : List TreatInterval) (sv : List ℚ),
      (runLoop cfg solver nVars sv sched).problemB = anyProcessedFails cfg solver sv sched := by
  intro sched
  induction sched with
  | nil => intro sv; rfl
  | cons iv rest ih =>
    intro sv
    by_cases h : intervalFailed cfg (callSolver cfg solver sv iv rest.isEmpty) = true
    · simp only [runLoop, anyProcessedFails, if_pos h]
    · simp only [runLoop, anyProcessedFails, if_neg h]
      exact ih _

/-- Helper: with stabilisation enabled and a solver that always reports
success, no processed interval fails. -/
theorem anyProcessedFails_stabilised (cfg : SolverConfig) (solver : Solver)
    (hstab : cfg.numericalStabilisationB = true)
    (hsucc : ∀ a : SolveArgs, (solver a).success = true) :
    ∀ (sched : List TreatInterval) (sv : List ℚ),
      anyProcessedFails cfg solver sv sched = false := by
  intro sched
  induction sched with
  | nil => intro sv; rfl
  | cons iv rest ih =>
    intro sv
    have h : intervalFailed cfg (callSolver cfg solver sv iv rest.isEmpty) = false := by
      simp [intervalFailed, callSolver, hsucc, hstab]
    simp only [anyProcessedFails, h]
    simpa using ih (lastColumn (stabilisedY cfg (callSolver cfg solver sv iv rest.isEmpty)))

/-- C10: solver-configuration keyword overrides passed to a single Simulate
call (dt, absErr, relErr, method, max_step, suppressOutputB,
numericalStabilisationB) are written to the model instance and persist: a
subsequent Simulate call without overrides runs on, and retains, the
overridden configuration rather than the construction-time one. -/
theorem Simulate_solver_config_persists (m : ODEModel) (solver1 solver2 : Solver)
    (kw : SimOverrides) (sched1 sched2 : List TreatInterval) :
    (((m.Simulate solver1 kw sched1).Simulate solver2 noOverrides sched2).cfg
        = applyOverrides m.cfg kw)
  ∧ ((m.Simulate solver1 kw sched1).cfg = applyOverrides m.cfg kw)
  ∧ (∀ c : SolverConfig, applyOverrides c noOverrides = c) := by
  refine ⟨?_, rfl, applyOverrides_noOverrides⟩
  show applyOverrides (applyOverrides m.cfg kw) noOverrides = applyOverrides m.cfg kw
  exact applyOverrides_noOverrides _

/-- C9 (code-bug evaluation): constructing EinarPersistorModelType3L with the
keyword override u0 = 0.001 leaves paramDic at the variant defaults (the
override is silently dropped because SetParams runs on the base dictionary,
whose single-key guard fails, before the variant installs its parameters) and
never builds initialStateList; the same happens to a DMax override on the base
class. -/
theorem construction_overrides_dropped :
    (EinarPersistorModelType3L_init [("u0", .num (1/1000))] =
      some { paramDic := type3LParamDic, stateVars := ["S", "R"], initialStateList := none })
  ∧ (lookupParam type3LParamDic "u0" = some (.num (1/2500)))
  ∧ (ODEModel_init [("DMax", .num 50)] =
      some { paramDic := [("DMax", .num 100)], stateVars := ["P1"], initialStateList := none }) :=
  ⟨rfl, rfl, rfl⟩

/-- C1: after a Simulate call over a nonempty schedule the successB flag is
false iff at least one processed interval failed (the solver reported
non-convergence, or the solution went negative with stabilisation disabled);
with stabilisation enabled and an always-converging solver (negatives only
clamped) the flag is true. -/
theorem Simulate_successB_iff_processed_failure (m : ODEModel) (solver : Solver)
    (kw : SimOverrides) (sched : List TreatInterval) (_hne : sched ≠ []) :
    ((m.Simulate solver kw sched).successB = false ↔
      anyProcessedFails (applyOverrides m.cfg kw) solver (simStartVec m sched) sched = true)
  ∧ ((applyOverrides m.cfg kw).numericalStabilisationB = true →
      (∀ a : SolveArgs, (solver a).success = true) →
      (m.Simulate solver kw sched).successB = true) := by
  constructor
  · have h := runLoop_problemB_eq (applyOverrides m.cfg kw) solver m.stateVars.length sched
      (simStartVec m sched)
    simp [ODEModel.Simulate, simRun, h]
  · intro hstab hsucc
    have h := runLoop_problemB_eq (applyOverrides m.cfg kw) solver m.stateVars.length sched
      (simStartVec m sched)
    have h2 := anyProcessedFails_stabilised (applyOverrides m.cfg kw) solver hstab hsucc sched
      (simStartVec m sched)
    simp [ODEModel.Simulate, simRun, h, h2]

/-- C1 witness: a diverging solver flips the flag to false; a negative but
converging solution with stabilisation enabled leaves it true. -/
theorem Simulate_successB_iff_processed_failure_witness :
    ((exampleModel.Simulate divergeSolver noOverrides [⟨0, 2, 5⟩]).successB = false)
  ∧ ((exampleModel.Simulate negSolver
      { noOverrides with numericalStabilisationB := some true } [⟨0, 2, 5⟩]).successB = true) := by
  constructor
  · exact (Simulate_successB_iff_processed_failure exampleModel divergeSolver noOverrides
      [⟨0, 2, 5⟩] (by simp)).1.mpr rfl
  · exact (Simulate_successB_iff_processed_failure exampleModel negSolver
      { noOverrides with numericalStabilisationB := some true } [⟨0, 2, 5⟩] (by simp)).2
      rfl (fun _ => rfl)

/-- C4: when no trajectory record exists or the schedule's first interval
starts at time 0, integration starts from the configured initial state vector
with the drug-concentration slot 0 and the old record is discarded before the
new rows are stored; otherwise integration resumes from the last recorded
state-variable values and DrugConcentration and the new rows are appended to
the old record. -/
theorem Simulate_initial_state_and_reset (m : ODEModel) (solver : Solver)
    (kw : SimOverrides) (sched : List TreatInterval) (_hne : sched ≠ []) :
    ((m.resultsDf = none ∨ firstStart sched = 0) →
        simStartVec m sched = m.initialStateList ++ [0] ∧
        (m.Simulate solver kw sched).resultsDf = some (simNewRows m solver kw sched))
  ∧ (m.resultsDf ≠ none → firstStart sched ≠ 0 →
        simStartVec m sched = resumeState m ∧
        (m.Simulate solver kw sched).resultsDf =
          some (m.resultsDf.getD [] ++ simNewRows m solver kw sched)) := by
  constructor
  · intro h
    constructor
    · rw [simStartVec, if_pos h]
    · rw [ODEModel.Simulate]
      simp only [simOldRows, if_pos (show simFresh m sched from h), List.nil_append]
  · intro h1 h2
    have hf : ¬ simFresh m sched := by
      simp only [simFresh, not_or]
      exact ⟨h1, h2⟩
    constructor
    · rw [simStartVec, if_neg hf]
    · rw [ODEModel.Simulate]
      simp only [simOldRows, if_neg hf]

/-- C4 witness: a fresh model starting at time 0 integrates from the initial
state with drug slot 0 and stores only the new rows. -/
theorem Simulate_initial_state_and_reset_witness :
    simStartVec exampleModel [⟨0, 2, 5⟩] = [1, 1, 0]
  ∧ (exampleModel.Simulate constSolver noOverrides [⟨0, 2, 5⟩]).resultsDf =
      some (simNewRows exampleModel constSolver noOverrides [⟨0, 2, 5⟩]) := by
  have h := (Simulate_initial_state_and_reset exampleModel constSolver noOverrides
    [⟨0, 2, 5⟩] (by simp)).1 (Or.inl rfl)
  exact ⟨by rw [h.1]; rfl, h.2⟩

/-- C5: the Simulate_AT50 decision with threshold θ and fixed reference R
switches to (D_min, off-length) strictly below (1-θ)·R, to (D_Star, on-length)
strictly above R, and holds both dose and interval length anywhere in between,
including exactly at R; the loop body never changes the reference; with θ=0.5
a reading of 0.49·R triggers off-dosing and 1.01·R triggers on-dosing. -/
theorem Simulate_AT50_threshold_decision (atTh refS Dmin DStar iOff iOn dose len T : ℚ)
    (hth0 : 0 ≤ atTh) (_hth1 : atTh ≤ 1) (hR : 0 < refS) :
    (T < (1 - atTh) * refS →
        at50Decision atTh refS Dmin DStar iOff iOn (dose, len) T = (Dmin, iOff))
  ∧ (T > refS →
        at50Decision atTh refS Dmin DStar iOff iOn (dose, len) T = (DStar, iOn))
  ∧ ((1 - atTh) * refS ≤ T → T ≤ refS →
        at50Decision atTh refS Dmin DStar iOff iOn (dose, len) T = (dose, len))
  ∧ (∀ (p : AT50Params) (solver : Solver) (kw : SimOverrides) (s : AT50State),
        (Simulate_AT50_step p solver kw s).refSize = s.refSize)
  ∧ (at50Decision (1/2) refS Dmin DStar iOff iOn (dose, len) ((49/100) * refS) = (Dmin, iOff))
  ∧ (at50Decision (1/2) refS Dmin DStar iOff iOn (dose, len) ((101/100) * refS) =
      (DStar, iOn)) := by
  refine ⟨?_, ?_, ?_, ?_, ?_, ?_⟩
  · intro h
    rw [at50Decision, if_pos h]
  · intro h
    have hno : ¬ T < (1 - atTh) * refS := by nlinarith
    rw [at50Decision, if_neg hno, if_pos h]
  · intro h1 h2
    rw [at50Decision, if_neg (not_lt.mpr h1), if_neg (not_lt.mpr h2)]
  · intro p solver kw s
    rfl
  · rw [at50Decision, if_pos (by nlinarith)]
  · have hno : ¬ (101/100) * refS < (1 - (1/2)) * refS := by nlinarith
    rw [at50Decision, if_neg hno, if_pos (by nlinarith)]

/-- C5 witness: the three branches and the two θ=0.5 boundary examples at
concrete values (reference 1; dose 4 and length 5 held on a reading of
exactly 1). -/
theorem Simulate_AT50_threshold_decision_witness :
    at50Decision (1/2) 1 2 3 7 9 (4, 5) (49/100) = (2, 7)
  ∧ at50Decision (1/2) 1 2 3 7 9 (4, 5) (101/100) = (3, 9)
  ∧ at50Decision (1/2) 1 2 3 7 9 (4, 5) 1 = (4, 5) := by
  have h := Simulate_AT50_threshold_decision (1/2) 1 2 3 7 9 4 5 1
    (by norm_num) (by norm_num) (by norm_num)
  have h49 := Simulate_AT50_threshold_decision (1/2) 1 2 3 7 9 4 5 (49/100)
    (by norm_num) (by norm_num) (by norm_num)
  have h101 := Simulate_AT50_threshold_decision (1/2) 1 2 3 7 9 4 5 (101/100)
    (by norm_num) (by norm_num) (by norm_num)
  refine ⟨?_, ?_, h.2.2.1 (by norm_num) (by norm_num)⟩
  · have := h49.2.2.2.2.1
    rw [mul_one] at this
    exact this
  · have := h101.2.2.2.2.2
    rw [mul_one] at this
    exact this

/-- C6: along any run of the Simulate_AT1 decision sequence in which the
observed TumourSize stays below v_min for the first k steps, the dose entering
every step after the first is 0, the remembered dose is the dose withdrawn at
the first step of the run and is preserved unchanged from then through step k,
and the dose entering the decision of the first subsequent step is exactly
that remembered dose; the Simulate_AT1 loop body performs precisely this
update on its (dose, lastNonZeroDose) pair. -/
theorem Simulate_AT1_withdrawal_memory (atTh fac : ℚ) (mode : String) (DMax vmin : ℚ)
    (T refS : ℕ → ℚ) (s0 : ℚ × ℚ) (k : ℕ) (hk : 1 ≤ k)
    (hT : ∀ j, j < k → T j < vmin) :
    (∀ j, 1 ≤ j → j ≤ k → (at1DoseSeq atTh fac mode DMax vmin T refS s0 j).1 = 0)
  ∧ (∀ j, 1 ≤ j → j ≤ k →
        (at1DoseSeq atTh fac mode DMax vmin T refS s0 j).2 =
          (at1DoseSeq atTh fac mode DMax vmin T refS s0 1).2)
  ∧ ((at1DoseSeq atTh fac mode DMax vmin T refS s0 1).2 = at1RestoredDose s0)
  ∧ (at1RestoredDose (at1DoseSeq atTh fac mode DMax vmin T refS s0 k) =
      (at1DoseSeq atTh fac mode DMax vmin T refS s0 1).2)
  ∧ (∀ (p : AT1Params) (solver : Solver) (kw : SimOverrides) (s : AT1State),
        ((Simulate_AT1_step p solver kw s).dose,
            (Simulate_AT1_step p solver kw s).lastNonZeroDose) =
          at1DoseUpdate p.atThreshold p.doseAdjustFac p.mode
            (getNumParam s.m.paramDic "DMax" 0) p.v_min s.refSize
            (s.dose, s.lastNonZeroDose)
            (lastTumourSize (s.m.Simulate solver kw [⟨s.currStart, s.currEnd, s.dose⟩]))) := by
  have hstep : ∀ j, j < k →
      at1DoseSeq atTh fac mode DMax vmin T refS s0 (j + 1) =
        (0, at1RestoredDose (at1DoseSeq atTh fac mode DMax vmin T refS s0 j)) := by
    intro j hj
    show at1DoseUpdate atTh fac mode DMax vmin (refS j)
      (at1DoseSeq atTh fac mode DMax vmin T refS s0 j) (T j) = _
    rw [at1DoseUpdate]
    simp only [if_pos (hT j hj)]
    rfl
  have hone : ∀ j, 1 ≤ j → j ≤ k →
      (at1DoseSeq atTh fac mode DMax vmin T refS s0 j).1 = 0 := by
    intro j h1 h2
    obtain ⟨i, rfl⟩ : ∃ i, j = i + 1 := ⟨j - 1, by omega⟩
    rw [hstep i (by omega)]
  have hconst : ∀ j, 1 ≤ j → j ≤ k →
      (at1DoseSeq atTh fac mode DMax vmin T refS s0 j).2 =
        (at1DoseSeq atTh fac mode DMax vmin T refS s0 1).2 := by
    intro j
    induction j with
    | zero => omega
    | succ i ih =>
      intro h1 h2
      rcases Nat.lt_or_ge i 1 with hi | hi
      · have : i = 0 := by omega
        subst this
        rfl
      · rw [hstep i (by omega)]
        have hi1 : (at1DoseSeq atTh fac mode DMax vmin T refS s0 i).1 = 0 :=
          hone i hi (by omega)
        rw [at1RestoredDose, if_pos hi1]
        exact ih hi (by omega)
  refine ⟨hone, hconst, ?_, ?_, ?_⟩
  · rw [show (1 : ℕ) = 0 + 1 from rfl, hstep 0 (by omega)]
    rfl
  · rw [at1RestoredDose, if_pos (hone k hk le_rfl)]
    exact hconst k hk le_rfl
  · intro p solver kw s
    rfl

/-- C6 witness: a two-step run below v_min = 1 starting from dose 10 with
remembered dose 7: the second step applies dose 0, the remembered dose becomes
10 at the first step and stays 10, and 10 is the dose entering the next
decision. -/
theorem Simulate_AT1_withdrawal_memory_witness :
    (at1DoseSeq (1/5) (1/2) "original" 100 1 (fun j => if j < 2 then 0 else 5)
      (fun _ => 3) (10, 7) 1).1 = 0
  ∧ (at1DoseSeq (1/5) (1/2) "original" 100 1 (fun j => if j < 2 then 0 else 5)
      (fun _ => 3) (10, 7) 1).2 = 10
  ∧ (at1DoseSeq (1/5) (1/2) "original" 100 1 (fun j => if j < 2 then 0 else 5)
      (fun _ => 3) (10, 7) 2).2 = 10
  ∧ at1RestoredDose (at1DoseSeq (1/5) (1/2) "original" 100 1
      (fun j => if j < 2 then 0 else 5) (fun _ => 3) (10, 7) 2) = 10 := by
  have h := Simulate_AT1_withdrawal_memory (1/5) (1/2) "original" 100 1
    (fun j => if j < 2 then 0 else 5) (fun _ => 3) (10, 7) 2 (by norm_num)
    (by intro j hj; simp only [if_pos hj]; norm_num)
  have h10 : at1RestoredDose ((10 : ℚ), (7 : ℚ)) = 10 := by
    rw [at1RestoredDose, if_neg (by norm_num)]
  refine ⟨h.1 1 le_rfl (by norm_num), ?_, ?_, ?_⟩
  · rw [h.2.2.1, h10]
  · rw [h.2.1 2 (by norm_num) le_rfl, h.2.2.1, h10]
  · rw [h.2.2.2.1, h.2.2.1, h10]

/-- Helper: arangeFrom lists the points a + k·dt for k below the count. -/
theorem arangeFrom_eq_map (dt : ℚ) :
    ∀ (n : ℕ) (a : ℚ), arangeFrom a dt n = (List.range n).map (fun k : ℕ => a + (k : ℚ) * dt) := by
  intro n
  induction n with
  | zero => intro a; rfl
  | succ n ih =>
    intro a
    rw [arangeFrom, List.range_succ_eq_map, List.map_cons, List.map_map, ih (a + dt)]
    congr 1
    · norm_num
    · apply List.map_congr_left
      intro k _
      simp only [Function.comp_apply]
      push_cast
      ring

/-- Helper: dropping the last point of an (n+1)-point arange gives the n-point
arange. -/
theorem arangeFrom_dropLast (dt : ℚ) :
    ∀ (n : ℕ) (a : ℚ), (arangeFrom a dt (n + 1)).dropLast = arangeFrom a dt n := by
  intro n
  induction n with
  | zero => intro a; rfl
  | succ n ih =>
    intro a
    rw [show arangeFrom a dt (n + 1 + 1) = a :: arangeFrom (a + dt) dt (n + 1) from rfl,
      show arangeFrom a dt (n + 1) = a :: arangeFrom (a + dt) dt n from rfl]
    rw [show arangeFrom (a + dt) dt (n + 1) = (a + dt) :: arangeFrom (a + dt + dt) dt n from rfl]
    rw [List.dropLast_cons₂]
    rw [show (a + dt) :: arangeFrom (a + dt + dt) dt n = arangeFrom (a + dt) dt (n + 1) from rfl]
    rw [ih (a + dt)]

/-- Helper: the last point of an (n+1)-point arange is a + n·dt. -/
theorem lastOpt_arangeFrom (dt : ℚ) :
    ∀ (n : ℕ) (a : ℚ), lastOpt (arangeFrom a dt (n + 1)) = some (a + n * dt) := by
  intro n
  induction n with
  | zero => intro a; simp [arangeFrom, lastOpt]
  | succ n ih =>
    intro a
    rw [show arangeFrom a dt (n + 1 + 1) = a :: arangeFrom (a + dt) dt (n + 1) from rfl]
    rw [show arangeFrom (a + dt) dt (n + 1) = (a + dt) :: arangeFrom (a + dt + dt) dt n from rfl]
    rw [show lastOpt (a :: (a + dt) :: arangeFrom (a + dt + dt) dt n)
        = lastOpt ((a + dt) :: arangeFrom (a + dt + dt) dt n) from rfl]
    rw [show (a + dt) :: arangeFrom (a + dt + dt) dt n = arangeFrom (a + dt) dt (n + 1) from rfl]
    rw [ih (a + dt)]
    congr 1
    push_cast
    ring

/-- Helper: the last element of a list with an appended singleton. -/
theorem lastOpt_append_singleton {α : Type _} (x : α) :
    ∀ l : List α, lastOpt (l ++ [x]) = some x := by
  intro l
  induction l with
  | nil => rfl
  | cons a rest ih =>
    cases rest with
    | nil => rfl
    | cons b rest2 =>
      rw [show (a :: b :: rest2) ++ [x] = a :: ((b :: rest2) ++ [x]) from rfl]
      rw [show lastOpt (a :: ((b :: rest2) ++ [x])) = lastOpt ((b :: rest2) ++ [x]) from rfl]
      exact ih

/-- Helper: the point count of the extended final grid over an interval of
length m·dt is m+1, and of the plain grid is m. -/
theorem arangeQ_counts (t0 t1 dt : ℚ) (m : ℕ) (hdt : 0 < dt) (ht : t1 = t0 + m * dt) :
    arangeQ t0 (t1 + dt) dt = arangeFrom t0 dt (m + 1) ∧
    arangeQ t0 t1 dt = arangeFrom t0 dt m := by
  constructor
  · rw [arangeQ]
    congr 1
    have e1 : (t1 + dt - t0) / dt = ((m : ℚ) + 1) := by
      rw [ht]
      field_simp
      ring
    rw [e1, show ((m : ℚ) + 1) = ((m + 1 : ℕ) : ℚ) by push_cast; ring, Int.ceil_natCast]
    simp
  · rw [arangeQ]
    congr 1
    have e1 : (t1 - t0) / dt = (m : ℚ) := by
      rw [ht]
      field_simp
    rw [e1, Int.ceil_natCast]
    simp

/-- Helper: the floating-point guard of the final-interval grid: whenever the
extended grid's computed last point is at most the requested end time, the
grid's last point is overwritten with exactly that end time. -/
theorem buildTVec_final_guard (a b c x : ℚ) (h : lastOpt (arangeQ a (b + c) c) = some x)
    (hx : x ≤ b) : buildTVec true a b c = (arangeQ a (b + c) c).dropLast ++ [b] := by
  rw [buildTVec, if_pos rfl, h]
  simp [hx]

/-- C8 counterexample: for the final (single) interval (0, 5/2) with dt = 1
the evaluation grid is [0, 1, 2, 3]: its last point is 3, not the requested
end time 5/2, because the guard only fires when the computed last point is at
most the end time.  This falsifies the claim that the last point of the final
grid always equals t1 exactly. -/
theorem final_grid_last_point_counterexample :
    lastOpt (buildTVec true 0 (5/2) 1) = some 3 ∧ (3 : ℚ) ≠ 5/2 := by
  have hg : arangeQ 0 ((5 : ℚ)/2 + 1) 1 = [0, 1, 2, 3] := by
    rw [arangeQ]
    have e : (⌈(((5 : ℚ)/2 + 1) - 0) / 1⌉).toNat = 4 := by
      have e1 : (((5 : ℚ)/2 + 1) - 0) / 1 = 7/2 := by norm_num
      have e2 : ⌈(7 : ℚ)/2⌉ = 4 := by
        rw [Int.ceil_eq_iff]
        norm_num
      rw [e1, e2]
      rfl
    rw [e]
    norm_num [arangeFrom]
  constructor
  · rw [buildTVec, if_pos rfl, hg]
    norm_num [lastOpt]
  · norm_num

/-- C8 (amended): when the final interval's length is a positive multiple
m·dt of the step, the final-interval grid extends the non-final grid (which
stops strictly before the interval end) by exactly one point and its last
point equals the requested end time t1 exactly; and in general the guard
forces the last grid point to t1 whenever the computed last point does not
exceed t1.  (As stated, the claim fails when the interval length is not a
multiple of dt: see the counterexample.) -/
theorem final_grid_extension_and_guard (t0 t1 dt : ℚ) (m : ℕ) (hdt : 0 < dt)
    (_hm : 1 ≤ m) (ht : t1 = t0 + m * dt) :
    buildTVec true t0 t1 dt = buildTVec false t0 t1 dt ++ [t1]
  ∧ lastOpt (buildTVec true t0 t1 dt) = some t1
  ∧ (∀ x ∈ buildTVec false t0 t1 dt, x < t1)
  ∧ (∀ a b c x : ℚ, lastOpt (arangeQ a (b + c) c) = some x → x ≤ b →
        buildTVec true a b c = (arangeQ a (b + c) c).dropLast ++ [b]) := by
  obtain ⟨h1, h0⟩ := arangeQ_counts t0 t1 dt m hdt ht
  have hlast : lastOpt (arangeQ t0 (t1 + dt) dt) = some t1 := by
    rw [h1, lastOpt_arangeFrom, ht]
  have hfin : buildTVec true t0 t1 dt = arangeFrom t0 dt m ++ [t1] := by
    rw [buildTVec_final_guard t0 t1 dt t1 hlast le_rfl, h1, arangeFrom_dropLast]
  have hnon : buildTVec false t0 t1 dt = arangeFrom t0 dt m := h0
  refine ⟨?_, ?_, ?_, buildTVec_final_guard⟩
  · rw [hfin, hnon]
  · rw [hfin]
    exact lastOpt_append_singleton t1 _
  · intro x hx
    rw [hnon, arangeFrom_eq_map] at hx
    obtain ⟨k, hk, rfl⟩ := List.mem_map.mp hx
    rw [List.mem_range] at hk
    rw [ht]
    have hkm : (k : ℚ) < m := by exact_mod_cast hk
    nlinarith

/-- C8 witness: the interval (0, 2) with dt = 1: the final grid [0, 1, 2]
extends the non-final grid [0, 1] by one point and ends exactly at 2. -/
theorem final_grid_extension_and_guard_witness :
    buildTVec true 0 2 1 = buildTVec false 0 2 1 ++ [2]
  ∧ lastOpt (buildTVec true 0 2 1) = some 2 := by
  have h := final_grid_extension_and_guard 0 2 1 2 (by norm_num) (by norm_num) (by norm_num)
  exact ⟨h.1, h.2.1⟩

/-- Helper: a schedule with a first failing interval makes the interval loop
report the problem and keep exactly one block per preceding interval (the
failing interval's own trajectory is discarded). -/
theorem runLoop_firstFail_blocks (cfg : SolverConfig) (solver : Solver) (nVars : ℕ) :
    ∀ (sched : List TreatInterval) (sv : List ℚ) (k : ℕ),
      firstFailIdx cfg solver sv sched = some k →
      (runLoop cfg solver nVars sv sched).problemB = true ∧
      (runLoop cfg solver nVars sv sched).blocks.length = k := by
  intro sched
  induction sched with
  | nil => intro sv k h; simp [firstFailIdx] at h
  | cons iv rest ih =>
    intro sv k h
    by_cases hf : intervalFailed cfg (callSolver cfg solver sv iv rest.isEmpty) = true
    · rw [firstFailIdx, if_pos hf] at h
      obtain rfl : (0 : ℕ) = k := Option.some.inj h
      simp only [runLoop, if_pos hf]
      exact ⟨trivial, rfl⟩
    · rw [firstFailIdx, if_neg hf] at h
      cases hx : firstFailIdx cfg solver
          (lastColumn (stabilisedY cfg (callSolver cfg solver sv iv rest.isEmpty))) rest with
      | none => rw [hx] at h; simp at h
      | some k2 =>
        rw [hx] at h
        have hk : k = k2 + 1 := by simpa using h.symm
        subst hk
        obtain ⟨p1, p2⟩ := ih _ k2 hx
        constructor
        · simp only [runLoop, if_neg hf]
          exact p1
        · simp only [runLoop, if_neg hf, List.length_cons]
          rw [p2]

/-- Helper: when the first interval of a schedule fails, the loop returns no
blocks and records that interval's grid as the last attempted one. -/
theorem runLoop_firstFail_zero (cfg : SolverConfig) (solver : Solver) (nVars : ℕ)
    (iv : TreatInterval) (rest : List TreatInterval) (sv : List ℚ)
    (h : firstFailIdx cfg solver sv (iv :: rest) = some 0) :
    runLoop cfg solver nVars sv (iv :: rest) =
      { blocks := [], problemB := true, finalState := setLast sv iv.dose,
        lastTVec := tVecFor cfg iv rest.isEmpty } := by
  by_cases hf : intervalFailed cfg (callSolver cfg solver sv iv rest.isEmpty) = true
  · simp only [runLoop, if_pos hf]
  · exfalso
    rw [firstFailIdx, if_neg hf] at h
    cases hx : firstFailIdx cfg solver
        (lastColumn (stabilisedY cfg (callSolver cfg solver sv iv rest.isEmpty))) rest with
    | none => rw [hx] at h; simp at h
    | some k2 => rw [hx] at h; simp at h

/-- Helper: one-step unfolding of the interval loop on a nonempty schedule. -/
theorem runLoop_cons (cfg : SolverConfig) (solver : Solver) (nVars : ℕ) (sv : List ℚ)
    (iv : TreatInterval) (l : List TreatInterval) :
    runLoop cfg solver nVars sv (iv :: l) =
      if intervalFailed cfg (callSolver cfg solver sv iv l.isEmpty) = true then
        { blocks := [], problemB := true, finalState := setLast sv iv.dose,
          lastTVec := tVecFor cfg iv l.isEmpty }
      else
        { blocks :=
            mkBlock nVars (stabilisedY cfg (callSolver cfg solver sv iv l.isEmpty))
                (tVecFor cfg iv l.isEmpty) ::
              (runLoop cfg solver nVars
                (lastColumn (stabilisedY cfg (callSolver cfg solver sv iv l.isEmpty))) l).blocks
          problemB :=
            (runLoop cfg solver nVars
              (lastColumn (stabilisedY cfg (callSolver cfg solver sv iv l.isEmpty))) l).problemB
          finalState :=
            (runLoop cfg solver nVars
              (lastColumn (stabilisedY cfg (callSolver cfg solver sv iv l.isEmpty))) l).finalState
          lastTVec :=
            if l.isEmpty then tVecFor cfg iv l.isEmpty
            else
              (runLoop cfg solver nVars
                (lastColumn (stabilisedY cfg (callSolver cfg solver sv iv l.isEmpty))) l).lastTVec } :=
  rfl

/-- Helper: the loop result does not depend on the intervals after the first
failing one: replacing them by any intervals (of the same number, so that the
final-interval grid extension applies to the same position) leaves the result
unchanged. -/
theorem runLoop_firstFail_take (cfg : SolverConfig) (solver : Solver) (nVars : ℕ) :
    ∀ (sched : List TreatInterval) (sv : List ℚ) (k : ℕ),
      firstFailIdx cfg solver sv sched = some k →
      ∀ rest2 : List TreatInterval, rest2.length = (sched.drop (k + 1)).length →
        runLoop cfg solver nVars sv (sched.take (k + 1) ++ rest2) =
          runLoop cfg solver nVars sv sched := by
  intro sched
  induction sched with
  | nil => intro sv k h; simp [firstFailIdx] at h
  | cons iv rest ih =>
    intro sv k h rest2 hlen
    by_cases hf : intervalFailed cfg (callSolver cfg solver sv iv rest.isEmpty) = true
    · rw [firstFailIdx, if_pos hf] at h
      obtain rfl : (0 : ℕ) = k := Option.some.inj h
      have hlen2 : rest2.length = rest.length := hlen
      have hemp : rest2.isEmpty = rest.isEmpty := by
        cases rest2 <;> cases rest <;> simp_all
      show runLoop cfg solver nVars sv (iv :: rest2) = runLoop cfg solver nVars sv (iv :: rest)
      rw [runLoop_cons, runLoop_cons, hemp, if_pos hf, if_pos hf]
    · rw [firstFailIdx, if_neg hf] at h
      cases hx : firstFailIdx cfg solver
          (lastColumn (stabilisedY cfg (callSolver cfg solver sv iv rest.isEmpty))) rest with
      | none => rw [hx] at h; simp at h
      | some k2 =>
        rw [hx] at h
        have hk : k = k2 + 1 := by simpa using h.symm
        subst hk
        have hrestne : rest ≠ [] := by
          intro he
          rw [he] at hx
          simp [firstFailIdx] at hx
        obtain ⟨b, bs, rfl⟩ : ∃ b bs, rest = b :: bs := by
          cases rest with
          | nil => exact absurd rfl hrestne
          | cons b bs => exact ⟨b, bs, rfl⟩
        simp only [List.isEmpty_cons] at hf hx
        have hlen2 : rest2.length = ((b :: bs).drop (k2 + 1)).length := hlen
        have hrec := ih _ k2 hx rest2 hlen2
        simp only [List.take_succ_cons, List.cons_append] at hrec
        show runLoop cfg solver nVars sv (iv :: (b :: (List.take k2 bs ++ rest2))) =
          runLoop cfg solver nVars sv (iv :: (b :: bs))
        rw [runLoop_cons cfg solver nVars sv iv (b :: (List.take k2 bs ++ rest2)),
          runLoop_cons cfg solver nVars sv iv (b :: bs)]
        simp only [List.isEmpty_cons]
        rw [if_neg hf, if_neg hf, hrec]

/-- C2: for a Simulate call whose first failing interval has index k,
replacing the intervals after k by any same-length intervals leaves the whole
loop result unchanged (intervals k+1 .. n-1 are never attempted); the loop
keeps exactly the k blocks of intervals 0 .. k-1 (the failing interval's
trajectory is discarded); when k = 0 the appended rows are the all-zero block
over the first interval's time grid, and when 0 < k the appended rows are
exactly the concatenated blocks of intervals 0 .. k-1. -/
theorem Simulate_stops_at_first_failure (m : ODEModel) (solver : Solver) (kw : SimOverrides)
    (sched : List TreatInterval) (k : ℕ)
    (h : firstFailIdx (applyOverrides m.cfg kw) solver (simStartVec m sched) sched = some k) :
    (∀ rest2 : List TreatInterval, rest2.length = (sched.drop (k + 1)).length →
        runLoop (applyOverrides m.cfg kw) solver m.stateVars.length (simStartVec m sched)
            (sched.take (k + 1) ++ rest2) = simRun m solver kw sched)
  ∧ ((simRun m solver kw sched).blocks.length = k)
  ∧ (k = 0 → ∀ iv rest, sched = iv :: rest →
        simNewRows m solver kw sched =
          addTumourSize m
            (zeroBlock (tVecFor (applyOverrides m.cfg kw) iv rest.isEmpty)
              m.stateVars.length))
  ∧ (0 < k →
        simNewRows m solver kw sched =
          addTumourSize m (simRun m solver kw sched).blocks.flatten) := by
  obtain ⟨hp, hlen⟩ :=
    runLoop_firstFail_blocks (applyOverrides m.cfg kw) solver m.stateVars.length sched
      (simStartVec m sched) k h
  refine ⟨?_, hlen, ?_, ?_⟩
  · intro rest2 hlen2
    exact runLoop_firstFail_take (applyOverrides m.cfg kw) solver m.stateVars.length sched
      (simStartVec m sched) k h rest2 hlen2
  · rintro rfl iv rest rfl
    have hz := runLoop_firstFail_zero (applyOverrides m.cfg kw) solver m.stateVars.length
      iv rest (simStartVec m (iv :: rest)) h
    rw [simNewRows, simRun, hz]
    rfl
  · intro hk
    have hlen2 : (simRun m solver kw sched).blocks.length = k := hlen
    have hne : (simRun m solver kw sched).blocks.isEmpty = false := by
      cases hb : (simRun m solver kw sched).blocks with
      | nil => rw [hb] at hlen2; simp at hlen2; omega
      | cons x xs => rfl
    rw [simNewRows, hne]
    simp

/-- C2 witness: a three-interval schedule whose second interval diverges:
exactly one block (the first interval's) is kept, the appended rows are that
block with TumourSize filled in, and the third interval can be replaced
arbitrarily without changing the loop result. -/
theorem Simulate_stops_at_first_failure_witness :
    ((simRun exampleModel failAtOneSolver noOverrides
        [⟨0, 1, 5⟩, ⟨1, 2, 5⟩, ⟨2, 3, 0⟩]).blocks.length = 1)
  ∧ (simNewRows exampleModel failAtOneSolver noOverrides [⟨0, 1, 5⟩, ⟨1, 2, 5⟩, ⟨2, 3, 0⟩] =
      addTumourSize exampleModel
        (simRun exampleModel failAtOneSolver noOverrides
          [⟨0, 1, 5⟩, ⟨1, 2, 5⟩, ⟨2, 3, 0⟩]).blocks.flatten) := by
  have hidx : firstFailIdx (applyOverrides exampleModel.cfg noOverrides) failAtOneSolver
      (simStartVec exampleModel [⟨0, 1, 5⟩, ⟨1, 2, 5⟩, ⟨2, 3, 0⟩])
      [⟨0, 1, 5⟩, ⟨1, 2, 5⟩, ⟨2, 3, 0⟩] = some 1 := by
    norm_num [firstFailIdx, simStartVec, simFresh, exampleModel, cfg0, applyOverrides,
      noOverrides, callSolver, tVecFor, buildTVec, arangeQ, arangeFrom, lastOpt, listHeadD,
      setLast, intervalFailed, stabilisedY, hasNeg, rowHasNeg, lastColumn, lastD,
      failAtOneSolver, constSolver, firstStart, Int.ceil_one, Int.ceil_ofNat]
  have h := Simulate_stops_at_first_failure exampleModel failAtOneSolver noOverrides
    [⟨0, 1, 5⟩, ⟨1, 2, 5⟩, ⟨2, 3, 0⟩] 1 hidx
  exact ⟨h.2.1, h.2.2.2 (by norm_num)⟩

set_option maxHeartbeats 1600000 in
/-- C3 (code-bug evaluation): the Simulate_AT1 loop body never increments
currCycleId (unlike Simulate_AT2 and Simulate_AT50), so a finite nCycles does
not bound its iterations: with nCycles = 1, t_span (0, 3) and unit decision
intervals the loop executes 4 iterations (it terminates only by the time
horizon). -/
theorem Simulate_AT1_ignores_nCycles :
    (∀ (p : AT1Params) (solver : Solver) (kw : SimOverrides) (s : AT1State),
        (Simulate_AT1_step p solver kw s).currCycleId = s.currCycleId)
  ∧ at1BugParams.nCycles = ((1 : ℕ) : WithTop ℕ)
  ∧ loopCount (Simulate_AT1_guard at1BugParams)
      (Simulate_AT1_step at1BugParams constSolver noOverrides) 10
      (AT1Init at1BugParams exampleModel) = 4
  ∧ ¬ (4 ≤ (1 : ℕ)) := by
  refine ⟨fun p solver kw s => rfl, rfl, ?_, by norm_num⟩
  norm_num [loopCount, Simulate_AT1_guard, Simulate_AT1_step, at1BugParams, AT1Init,
    exampleModel, cfg0, constSolver, noOverrides, applyOverrides, getNumParam, lookupParam,
    lastTumourSize, at1DoseUpdate, ODEModel.Simulate, simOldRows, simNewRows, simRun,
    simStartVec, simFresh, firstStart, resumeState, takePad, runLoop, callSolver, tVecFor,
    buildTVec, arangeQ, arangeFrom, lastOpt, listHeadD, lastD, nthD, setLast, intervalFailed,
    stabilisedY, hasNeg, rowHasNeg, clampNeg, lastColumn, mkBlock, mkBlockAux, zeroBlock,
    addTumourSize, ODEModel.RunCellCountToTumourSizeModel, emptyRow,
    Int.ceil_one, Int.ceil_ofNat, WithTop.coe_lt_coe, WithTop.coe_lt_top,
    show ("DMax" : String) ≠ "scaleFactor" from by decide]

set_option maxHeartbeats 1600000 in
/-- Helper: the concrete Simulate_AT50 run of the duplicate-removal scenario:
two single-interval calls with doses 100 then 42; the boundary time 1 is the
last row of the first call and the first row of the second, and the two rows
differ in DrugConcentration, so drop_duplicates keeps both. -/
theorem at50DupRun_resultsDf :
    (Simulate_AT50 at50DupParams constSolver noOverrides exampleModel 5).resultsDf =
      some [⟨0, 100, [1, 1], 2⟩, ⟨1, 100, [1, 1], 2⟩, ⟨1, 42, [1, 1], 2⟩,
        ⟨2, 42, [1, 1], 2⟩] := by
  norm_num [Simulate_AT50, Simulate_AT50_guard, Simulate_AT50_step, AT50Init, at50Decision,
    at50DupParams, loopRun, dropDuplicates, dropDupAux,
    exampleModel, cfg0, constSolver, noOverrides, applyOverrides, getNumParam, lookupParam,
    lastTumourSize, ODEModel.Simulate, simOldRows, simNewRows, simRun,
    simStartVec, simFresh, firstStart, resumeState, takePad, runLoop, callSolver, tVecFor,
    buildTVec, arangeQ, arangeFrom, lastOpt, listHeadD, lastD, nthD, setLast, intervalFailed,
    stabilisedY, hasNeg, rowHasNeg, clampNeg, lastColumn, mkBlock, mkBlockAux, zeroBlock,
    addTumourSize, ODEModel.RunCellCountToTumourSizeModel, emptyRow,
    Int.ceil_one, Int.ceil_ofNat, WithTop.coe_lt_coe, WithTop.coe_lt_top,
    show ("DMax" : String) ≠ "scaleFactor" from by decide]

/-- C7 counterexample: after the Simulate_AT50 run in which the boundary time
1 appears as the last row of one single-interval Simulate call and the first
row of the next (with a changed dose), the cleaned record contains two rows
with Time = 1, not exactly one: drop_duplicates removes only rows identical in
every column, and the two boundary rows differ in DrugConcentration. -/
theorem controller_boundary_dedup_counterexample :
    countTimeEq 1
        ((Simulate_AT50 at50DupParams constSolver noOverrides exampleModel 5).resultsDf.getD [])
      = 2
  ∧ (2 : ℕ) ≠ 1 := by
  constructor
  · rw [at50DupRun_resultsDf]
    norm_num [countTimeEq, Option.getD]
  · norm_num

/-- C7 (amended): every controller performs exact-duplicate row removal on the
trajectory record on completion, so afterwards every row — in particular a
boundary row recorded identically (in all columns) by two consecutive
single-interval Simulate calls — occurs exactly once; two boundary rows that
differ in any column (such as DrugConcentration when the dose changes) are
both retained. -/
theorem controller_dedup_exact_duplicates :
    (∀ (p : AT1Params) (solver : Solver) (kw : SimOverrides) (m : ODEModel) (fuel : ℕ)
        (rows : List Row), (Simulate_AT1 p solver kw m fuel).resultsDf = some rows →
        ∀ r ∈ rows, rows.count r = 1)
  ∧ (∀ (p : AT2Params) (solver : Solver) (kw : SimOverrides) (m : ODEModel) (fuel : ℕ)
        (rows : List Row), (Simulate_AT2 p solver kw m fuel).resultsDf = some rows →
        ∀ r ∈ rows, rows.count r = 1)
  ∧ (∀ (p : AT50Params) (solver : Solver) (kw : SimOverrides) (m : ODEModel) (fuel : ℕ)
        (rows : List Row), (Simulate_AT50 p solver kw m fuel).resultsDf = some rows →
        ∀ r ∈ rows, rows.count r = 1) := by
  refine ⟨?_, ?_, ?_⟩ <;>
  · intro p solver kw m fuel rows h r hr
    simp only [Simulate_AT1, Simulate_AT2, Simulate_AT50] at h
    rw [Option.map_eq_some'] at h
    obtain ⟨l, _, rfl⟩ := h
    exact List.count_eq_one_of_mem (dropDuplicates_nodup l) hr

/-- C7 witness: in the concrete Simulate_AT50 run above, the first row of the
cleaned record occurs exactly once. -/
theorem controller_dedup_exact_duplicates_witness :
    ([⟨0, 100, [1, 1], 2⟩, ⟨1, 100, [1, 1], 2⟩, ⟨1, 42, [1, 1], 2⟩,
        ⟨2, 42, [1, 1], 2⟩] : List Row).count ⟨0, 100, [1, 1], 2⟩ = 1 :=
  controller_dedup_exact_duplicates.2.2 at50DupParams constSolver noOverrides exampleModel 5
    _ at50DupRun_resultsDf ⟨0, 100, [1, 1], 2⟩ (by simp)
